import Mathlib

/-!
Verification of the ExamEAYE backend (src/backend/server.py and
src/backend/export_service.py) against its natural-language specification.

The server's Mongo collections are embedded as Lean lists kept in insertion
order; `update_one` becomes an update of the first matching document,
`find_one` becomes `List.find?`, `insert_one` an append.  WebSocket
broadcasts are recorded in an outbound message log.  Timestamps are carried
as opaque strings supplied by the caller (wall-clock time itself is not
modelled), and the external collaborators that are out of scope for the
core (the detection service and the snapshot object store) are passed in as
explicit parameters describing their observable outcome for the call, as
the spec's collaborator contracts describe them.
-/

namespace ExamEye

/-- Truthiness of an optional string field, as Python evaluates
`v.get(key)` in a boolean context: `None` and the empty string are falsy. -/
def truthyS (o : Option String) : Bool :=
  match o with
  | none => false
  | some s => s ≠ ""

/-- One document of the `exam_sessions` collection (the fields touched by
the endpoints under verification; calibration angles are floating-point
values never branched on and are omitted). -/
structure SessionDoc where
  id : String
  student_id : String
  student_name : String
  status : String
  total_frames : Nat
  violation_count : Nat
  end_time : Option String
deriving DecidableEq, Repr

/-- One document of the `violations` collection, as built by
`process_frame` (creation timestamp elided, see the module comment). -/
structure ViolationDoc where
  session_id : String
  student_id : String
  student_name : String
  violation_type : String
  severity : String
  message : String
  snapshot_url : Option String
  head_pose : Option String
deriving DecidableEq, Repr

/-- Payload of `ws_manager.broadcast_violation_alert`. -/
structure AlertMsg where
  session_id : String
  student_id : String
  student_name : String
  violation_type : String
  severity : String
  message : String
  snapshot_url : Option String
deriving DecidableEq, Repr

/-- Payload of `ws_manager.send_session_update` as emitted by
`end_exam_session`. -/
structure SessionUpdateMsg where
  session_id : String
  status : String
  end_time : Option String
deriving DecidableEq, Repr

/-- The two Mongo collections `process_frame` and the session endpoints
touch, in insertion order. -/
structure DB where
  exam_sessions : List SessionDoc
  violations : List ViolationDoc
deriving DecidableEq, Repr

/-- Server state: the database plus the log of WebSocket messages sent so
far (violation alerts and session updates). -/
structure ServerState where
  db : DB
  alerts : List AlertMsg
  session_updates : List SessionUpdateMsg
deriving DecidableEq, Repr

/-- Mongo `update_one`: apply `f` to the first element satisfying `p`,
leave the rest unchanged; matching nothing is not an error. -/
def updateFirst (p : α → Bool) (f : α → α) : List α → List α
  | [] => []
  | x :: xs => if p x then f x :: xs else x :: updateFirst p f xs

/-- An HTTP error response (`fastapi.HTTPException`): status code and
detail string. -/
structure HErr where
  status : Nat
  detail : String
deriving DecidableEq, Repr

/-- One entry of `result['violations']` as returned by the detection
collaborator: kind, severity and message of a finding. -/
structure FindingD where
  type : String
  severity : String
  message : String
deriving DecidableEq, Repr

/-- Modelled from the spec: the successful result dictionary of the
detection collaborator `proctoring_service.process_frame` (the service
module is not under src/); per the collaborator contract it carries a list
of findings, an optional head pose and an optional snapshot payload. -/
structure DetectOk where
  violations : List FindingD
  head_pose : Option String
  snapshot_base64 : Option String
deriving DecidableEq, Repr

/-- Modelled from the spec: outcome of invoking the detection collaborator
for one frame — either a result dictionary containing an `error` key
(rejected input) or a successful result. -/
inductive DetectResult where
  | err (msg : String)
  | ok (r : DetectOk)
deriving DecidableEq, Repr

/-- A `FrameProcessRequest` (the frame payload and calibration angles are
only forwarded to the detection collaborator, whose outcome is passed
separately, so only the session id is kept). -/
structure FrameRequest where
  session_id : String
deriving DecidableEq, Repr

/-- Per-finding body of the loop in `process_frame` (server.py lines
270-313) when the insert succeeds: optionally upload the snapshot (the
`upload` parameter is the object-store collaborator, returning the
retrievable URL or none on upload failure, which is non-fatal), insert the
violation record, increment the session's violation counter by a second
`update_one`, and broadcast the alert. -/
def applyFinding (upload : FindingD → Option String) (sid : String)
    (sess : SessionDoc) (snapshotB64 : Option String) (headPose : Option String)
    (fd : FindingD) (st : ServerState) : ServerState :=
  let snapshot_url := if truthyS snapshotB64 then upload fd else none
  let viol : ViolationDoc :=
    { session_id := sid, student_id := sess.student_id,
      student_name := sess.student_name, violation_type := fd.type,
      severity := fd.severity, message := fd.message,
      snapshot_url := snapshot_url, head_pose := headPose }
  let alert : AlertMsg :=
    { session_id := sid, student_id := sess.student_id,
      student_name := sess.student_name, violation_type := fd.type,
      severity := fd.severity, message := fd.message,
      snapshot_url := snapshot_url }
  let stA := { st with db := { st.db with violations := st.db.violations ++ [viol] } }
  let sessions2 :=
    updateFirst (fun s => s.id == sid)
      (fun s => { s with violation_count := s.violation_count + 1 })
      stA.db.exam_sessions
  let stB := { stA with db := { stA.db with exam_sessions := sessions2 } }
  { stB with alerts := stB.alerts ++ [alert] }

/-- The `for violation_detail in result['violations']` loop of
`process_frame`: findings are handled in detector order; `insertFails k`
says whether the k-th `db.violations.insert_one` of this call raises a
storage error — the loop body has no exception handler, so a raise there
stops the traversal (nothing of that finding is persisted, counted or
broadcast) and the error propagates to the endpoint's outer handler. -/
def processViolationLoop (upload : FindingD → Option String)
    (insertFails : Nat → Bool) (sid : String) (sess : SessionDoc)
    (snapshotB64 : Option String) (headPose : Option String) :
    List FindingD → Nat → ServerState → ServerState × Option HErr
  | [], _, st => (st, none)
  | fd :: rest, k, st =>
    if insertFails k then
      (st, some ⟨500, "StorageError"⟩)
    else
      processViolationLoop upload insertFails sid sess snapshotB64 headPose rest (k + 1)
        (applyFinding upload sid sess snapshotB64 headPose fd st)

/-- The frame-counter update of `process_frame` (server.py lines 261-264):
`update_one({"id": session_id}, {"$inc": {"total_frames": 1}})` — the first
matching session document gets its counter bumped; an unknown id matches
nothing and is not an error. -/
def bumpFrameCount (sid : String) (st : ServerState) : ServerState :=
  let sessions1 :=
    updateFirst (fun s => s.id == sid)
      (fun s => { s with total_frames := s.total_frames + 1 })
      st.db.exam_sessions
  { st with db := { st.db with exam_sessions := sessions1 } }

/-- The `/proctoring/process-frame` endpoint (server.py lines 246-321).
A detector result containing `error` aborts with HTTP 400 before any
database write.  Otherwise the session's frame counter is incremented by an
`update_one` that silently matches nothing when the id is unknown.  If
findings are present, the session document is fetched once; if that lookup
returns nothing, building the first violation record dereferences `None`
and the resulting exception is caught by the outer handler as HTTP 500.
Otherwise the findings are processed in order by `processViolationLoop`. -/
def process_frame (upload : FindingD → Option String) (insertFails : Nat → Bool)
    (st : ServerState) (req : FrameRequest) (det : DetectResult) :
    ServerState × Except HErr DetectOk :=
  match det with
  | .err msg => (st, .error ⟨400, msg⟩)
  | .ok r =>
    let st1 := bumpFrameCount req.session_id st
    if r.violations.isEmpty then
      (st1, .ok r)
    else
      match st1.db.exam_sessions.find? (fun s => s.id == req.session_id) with
      | none => (st1, .error ⟨500, "TypeError"⟩)
      | some sess =>
        match processViolationLoop upload insertFails req.session_id sess
            r.snapshot_base64 r.head_pose r.violations 0 st1 with
        | (st2, none) => (st2, .ok r)
        | (st2, some e) => (st2, .error e)

/-- The `/sessions/{session_id}/end` endpoint (server.py lines 204-232):
look the session up by id (404 if absent), then unconditionally set
`end_time` and `status := "completed"` and broadcast a session update.
`now` is the wall-clock timestamp string of this call. -/
def end_exam_session (now : String) (st : ServerState) (session_id : String) :
    ServerState × Except HErr String :=
  match st.db.exam_sessions.find? (fun s => s.id == session_id) with
  | none => (st, .error ⟨404, "Session not found"⟩)
  | some _ =>
    let sessions1 :=
      updateFirst (fun s => s.id == session_id)
        (fun s => { s with end_time := some now, status := "completed" })
        st.db.exam_sessions
    let upd : SessionUpdateMsg :=
      { session_id := session_id, status := "completed", end_time := some now }
    let st1 := { st with db := { st.db with exam_sessions := sessions1 } }
    let st2 := { st1 with session_updates := st1.session_updates ++ [upd] }
    (st2, .ok "Session ended successfully")

/-- The `/sessions/active/list` endpoint (server.py lines 235-239):
`find({"status": "active"}).to_list(100)` — the documents with status
"active", in collection order, capped at 100. -/
def get_active_sessions (st : ServerState) : List SessionDoc :=
  (st.db.exam_sessions.filter (fun s => s.status == "active")).take 100

/-! Export service (src/backend/export_service.py).  Its inputs are Mongo
documents read with `dict.get`, so every field is optional; timestamps are
already strings by the time they reach the formatter (the datetime branch
of line 307-310 collapses under this modelling). -/

/-- A violation document as consumed by the export service. -/
structure VRow where
  id : Option String
  student_id : Option String
  student_name : Option String
  session_id : Option String
  violation_type : Option String
  severity : Option String
  message : Option String
  timestamp : Option String
  snapshot_url : Option String
  snapshot_base64 : Option String
deriving DecidableEq, Repr

/-- One step of the Python dict-counting idiom
`d[k] = d.get(k, 0) + 1`: bump the entry holding `k` (a dict holds each
key at most once), or append a fresh one at the end — entries stay in
first-occurrence order, as Python dicts preserve insertion order. -/
def bump (k : String) : List (String × Nat) → List (String × Nat)
  | [] => [(k, 1)]
  | p :: ps => if p.1 == k then (p.1, p.2 + 1) :: ps else p :: bump k ps

/-- Count occurrences of each key, entries ordered by first occurrence
(the accumulation loops of export_service.py lines 71-73, 85-90, 107-109,
112-117, 196-199 and 225-228). -/
def countByKey (ks : List String) : List (String × Nat) :=
  ks.foldl (fun acc k => bump k acc) []

/-- Stable insertion step for a sort that is descending in the count
component: the new element goes in front of the first entry whose count
does not exceed it, so elements inserted earlier stay in front of later
equals. -/
def insertCountDesc (x : String × Nat) :
    List (String × Nat) → List (String × Nat)
  | [] => [x]
  | y :: ys => if y.2 ≤ x.2 then x :: y :: ys else y :: insertCountDesc x ys

/-- Python's `sorted(items, key=lambda x: x[1], reverse=True)`: the stable
sort descending by count, realised as insertion sort (stable sorts of the
same list under the same key agree element for element). -/
def sortCountDesc (l : List (String × Nat)) : List (String × Nat) :=
  l.foldr insertCountDesc []

/-- Helper for `pyTitle`: walk the characters carrying whether the
previous character was a letter. -/
def pyTitleAux : List Char → Bool → List Char
  | [], _ => []
  | c :: cs, prevAlpha =>
    if c.isAlpha then
      (if prevAlpha then c.toLower else c.toUpper) :: pyTitleAux cs true
    else c :: pyTitleAux cs false

/-- Python's `str.title()` on the alphabetic strings the report feeds it:
a letter is uppercased when it starts a run of letters and lowercased
otherwise. -/
def pyTitle (s : String) : String :=
  ⟨pyTitleAux s.toList false⟩

/-- Round a rational to the nearest tenth, which is what rendering with
`f"{x:.1f}"` does to the percentage values (rendering is modelled over
exact rationals; ties round up). -/
def roundTenth (q : ℚ) : ℚ :=
  ((⌊q * 10 + 1 / 2⌋ : ℤ) : ℚ) / 10

/-- Render a non-negative rational with one decimal digit, the shape
`f"{x:.1f}"` gives the percentage cells. -/
def fmtTenth (q : ℚ) : String :=
  let n : ℤ := ⌊q * 10 + 1 / 2⌋
  let sign := if n < 0 then "-" else ""
  sign ++ toString (n.natAbs / 10) ++ "." ++ toString (n.natAbs % 10)

/-- The per-kind counting loop of `generate_student_html_report`
(export_service.py lines 225-228): `v.get('violation_type', 'unknown')`
tallied into a dict. -/
def violationTypeCounts (violations : List VRow) : List (String × Nat) :=
  countByKey (violations.map (fun v => v.violation_type.getD "unknown"))

/-- The percentage table rows of `generate_student_html_report`
(export_service.py lines 289-297): one row per violation kind, sorted by
count descending, carrying the kind, the count, and the rendered value of
`count / len(violations) * 100` rounded to one decimal place. -/
def percentageRows (violations : List VRow) : List (String × Nat × ℚ) :=
  (sortCountDesc (violationTypeCounts violations)).map
    (fun p => (p.1, p.2, roundTenth ((p.2 : ℚ) / (violations.length : ℚ) * 100)))

/-- Field quoting of Python's `csv` writer in its default dialect: a field
containing the delimiter, the quote character or a line break is wrapped
in double quotes with inner quotes doubled. -/
def csvQuoteField (s : String) : String :=
  if s.contains ',' || s.contains '"' || s.contains '\r' || s.contains '\n' then
    "\"" ++ s.replace "\"" "\"\"" ++ "\""
  else s

/-- One CSV record: quoted fields joined by commas, terminated by the csv
module's default `\r\n`. -/
def csvLine (fields : List String) : String :=
  String.intercalate "," (fields.map csvQuoteField) ++ "\r\n"

/-- The header names of `export_violations_csv` (export_service.py lines
26-30). -/
def violationCsvHeaders : List String :=
  ["Violation ID", "Student ID", "Student Name", "Session ID",
   "Violation Type", "Severity", "Message", "Timestamp", "Snapshot URL"]

/-- One data record of `export_violations_csv` (export_service.py lines
36-46): each cell read with `v.get(key, '')`. -/
def violationCsvRow (v : VRow) : String :=
  csvLine [v.id.getD "", v.student_id.getD "", v.student_name.getD "",
           v.session_id.getD "", v.violation_type.getD "", v.severity.getD "",
           v.message.getD "", v.timestamp.getD "", v.snapshot_url.getD ""]

/-- The function `export_violations_csv` (export_service.py lines 17-48):
an empty input returns the empty string before the header is ever written;
otherwise the header record is written and then one record per violation,
folding over the input in order as the writer loop does. -/
def export_violations_csv (violations : List VRow) : String :=
  if violations.isEmpty then ""
  else violations.foldl (fun out v => out ++ violationCsvRow v)
    (csvLine violationCsvHeaders)

/-- The grouping key `f"{student_id}|{student_name}"` of the student-wise
summaries (export_service.py lines 89 and 116). -/
def studentKey (v : VRow) : String :=
  v.student_id.getD "" ++ "|" ++ v.student_name.getD ""

/-- The `student_violations` tally shared by `export_summary_csv`
(export_service.py lines 85-90) and `generate_html_report` (lines
112-117). -/
def studentViolationCounts (violations : List VRow) : List (String × Nat) :=
  countByKey (violations.map studentKey)

/-- The ranked student summary both report functions iterate: the tally
sorted by `sorted(student_violations.items(), key=lambda x: x[1],
reverse=True)` (export_service.py lines 92 and 345). -/
def rankedStudentCounts (violations : List VRow) : List (String × Nat) :=
  sortCountDesc (studentViolationCounts violations)

/-- The keys of a list in order of their first occurrence; used to state
the tie-breaking order of the ranked summaries. -/
def firstOccurrences (ks : List String) : List String :=
  ks.foldl (fun acc k => if acc.any (fun a => a == k) then acc else acc ++ [k]) []

/-- The evidence-photo tally of the student report (export_service.py line
275): violations carrying a truthy snapshot URL or inline payload. -/
def evidencePhotoCount (violations : List VRow) : Nat :=
  (violations.filter (fun v => truthyS v.snapshot_url || truthyS v.snapshot_base64)).length

/-- The snapshot image fragment of a violation card (export_service.py
lines 320-327): a truthy `snapshot_url` is embedded directly; otherwise a
truthy `snapshot_base64` is embedded as a data URI (prefixing the media
type when the payload does not already carry one); otherwise no image. -/
def imgSection (v : VRow) : String :=
  if truthyS v.snapshot_url then
    "<img src=\"" ++ v.snapshot_url.getD "" ++ "\" class=\"violation-image\" alt=\"Violation Evidence\">"
  else if truthyS v.snapshot_base64 then
    let s0 := v.snapshot_base64.getD ""
    let s1 := if s0.startsWith "data:" then s0 else "data:image/jpeg;base64," ++ s0
    "<img src=\"" ++ s1 ++ "\" class=\"violation-image\" alt=\"Violation Evidence\">"
  else ""

/-- The timestamp cell of a violation card (export_service.py lines
306-310): the string itself, or `N/A` when missing. -/
def timestampStr (v : VRow) : String :=
  match v.timestamp with
  | some s => s
  | none => "N/A"

/-- One violation card of the student report (export_service.py lines
305-329), numbered from 1. -/
def violationCard (i : Nat) (v : VRow) : String :=
  "\n                <div class=\"violation-card\">\n                    <div class=\"violation-header\">Violation #"
    ++ toString i ++ ": "
    ++ pyTitle ((v.violation_type.getD "Unknown").replace "_" " ")
    ++ "</div>\n                    <p><strong>Severity:</strong> "
    ++ (v.severity.getD "N/A").toUpper
    ++ "</p>\n                    <p><strong>Message:</strong> "
    ++ v.message.getD "N/A"
    ++ "</p>\n                    <p class=\"timestamp\"><strong>Timestamp:</strong> "
    ++ timestampStr v
    ++ "</p>\n                "
    ++ imgSection v
    ++ "</div>"

/-- The `enumerate(violations, 1)` loop of the detailed-violations section
(export_service.py line 305): the cards concatenated in input order. -/
def cardsFrom (i : Nat) : List VRow → String
  | [] => ""
  | v :: vs => violationCard i v ++ cardsFrom (i + 1) vs

/-- One row of the violation-breakdown table (export_service.py lines
291-297). -/
def breakdownRow (violations : List VRow) (p : String × Nat) : String :=
  "\n                    <tr>\n                        <td>"
    ++ pyTitle (p.1.replace "_" " ")
    ++ "</td>\n                        <td>" ++ toString p.2
    ++ "</td>\n                        <td>"
    ++ fmtTenth ((p.2 : ℚ) / (violations.length : ℚ) * 100)
    ++ "%</td>\n                    </tr>\n                "

/-- The breakdown table rows in descending-count order (export_service.py
lines 289-297). -/
def breakdownRows (violations : List VRow) : String :=
  String.join ((sortCountDesc (violationTypeCounts violations)).map (breakdownRow violations))

/-- The style sheet of the student report (export_service.py lines
237-255). -/
def studentReportStyle : String :=
  "
                    body \x7b font-family: Arial, sans-serif; margin: 40px; \x7d
                    .header \x7b text-align: center; border-bottom: 3px solid #333; padding-bottom: 20px; margin-bottom: 30px; \x7d
                    h1 \x7b color: #333; margin-bottom: 10px; \x7d
                    .info-box \x7b background-color: #f5f5f5; padding: 15px; border-radius: 5px; margin: 20px 0; \x7d
                    .stat-row \x7b display: flex; justify-content: space-around; margin: 20px 0; \x7d
                    .stat-box \x7b text-align: center; padding: 15px; \x7d
                    .stat-number \x7b font-size: 36px; font-weight: bold; color: #e74c3c; \x7d
                    .stat-label \x7b color: #666; font-size: 14px; margin-top: 5px; \x7d
                    h2 \x7b color: #666; margin-top: 30px; border-bottom: 2px solid #ddd; padding-bottom: 10px; \x7d
                    table \x7b border-collapse: collapse; width: 100%; margin: 20px 0; \x7d
                    th, td \x7b border: 1px solid #ddd; padding: 12px; text-align: left; \x7d
                    th \x7b background-color: #e74c3c; color: white; \x7d
                    tr:nth-child(even) \x7b background-color: #f9f9f9; \x7d
                    .violation-image \x7b max-width: 300px; max-height: 200px; border: 2px solid #e74c3c; border-radius: 5px; margin: 10px 0; \x7d
                    .violation-card \x7b border: 1px solid #ddd; padding: 15px; margin: 15px 0; border-radius: 5px; \x7d
                    .violation-card:nth-child(even) \x7b background-color: #f9f9f9; \x7d
                    .violation-header \x7b font-weight: bold; color: #e74c3c; margin-bottom: 10px; \x7d
                    .timestamp \x7b color: #666; font-size: 12px; \x7d
                "

/-- The function `generate_student_html_report` (export_service.py lines
220-339): document head and style, the header block, the three stat boxes
(total violations, distinct kinds, evidence photos), the breakdown table
with percentage cells, and the per-violation evidence cards.  `generated`
is the wall-clock string the source takes from `datetime.utcnow()`. -/
def generate_student_html_report (student_id student_name generated : String)
    (violations : List VRow) : String :=
  "
            <!DOCTYPE html>
            <html>
            <head>
                <meta charset=\"UTF-8\">
                <title>Student Violation Report - " ++ student_name ++ "</title>
                <style>" ++ studentReportStyle ++ "</style>
            </head>
            <body>
                <div class=\"header\">
                    <h1>Student Violation Report</h1>
                    <p><strong>Student ID:</strong> " ++ student_id ++ "</p>
                    <p><strong>Student Name:</strong> " ++ student_name ++ "</p>
                    <p><strong>Generated:</strong> " ++ generated ++ "</p>
                </div>

                <div class=\"stat-row\">
                    <div class=\"stat-box\">
                        <div class=\"stat-number\">" ++ toString violations.length ++ "</div>
                        <div class=\"stat-label\">Total Violations</div>
                    </div>
                    <div class=\"stat-box\">
                        <div class=\"stat-number\">" ++ toString (violationTypeCounts violations).length ++ "</div>
                        <div class=\"stat-label\">Violation Types</div>
                    </div>
                    <div class=\"stat-box\">
                        <div class=\"stat-number\">" ++ toString (evidencePhotoCount violations) ++ "</div>
                        <div class=\"stat-label\">Evidence Photos</div>
                    </div>
                </div>

                <h2>Violation Breakdown</h2>
                <table>
                    <tr>
                        <th>Violation Type</th>
                        <th>Count</th>
                        <th>Percentage</th>
                    </tr>
            " ++ breakdownRows violations ++ "
                </table>

                <h2>Detailed Violations with Evidence</h2>
            " ++ cardsFrom 1 violations ++ "
            </body>
            </html>
            "

/-- The transformation the URL-precedence claim quantifies over: drop the
inline payload from every violation that already carries a truthy
snapshot URL. -/
def clearInlineWhenUrl (v : VRow) : VRow :=
  if truthyS v.snapshot_url then { v with snapshot_base64 := none } else v

/-- Concatenate a list of strings (used to state the shape of the CSV
output). -/
def concatStrings (l : List String) : String :=
  l.foldr (fun a b => a ++ b) ""

instance [DecidableEq ε] [DecidableEq α] : DecidableEq (Except ε α)
  | .ok a, .ok b => decidable_of_iff (a = b) (by simp)
  | .ok _, .error _ => .isFalse (by simp)
  | .error _, .ok _ => .isFalse (by simp)
  | .error e, .error f => decidable_of_iff (e = f) (by simp)

/-! Sequencing of frame submissions, for the counter invariant. -/

/-- One `ProcessFrame` submission: the request together with the outcome
of the two external collaborators for this call (detection result, the
snapshot store's per-finding reply, and which inserts raise). -/
structure Call where
  req : FrameRequest
  det : DetectResult
  upload : FindingD → Option String
  insertFails : Nat → Bool

/-- Run one submission against the server state. -/
def runCall (st : ServerState) (c : Call) : ServerState × Except HErr DetectOk :=
  process_frame c.upload c.insertFails st c.req c.det

/-- Run a sequence of submissions, collecting the responses. -/
def runCalls : ServerState → List Call → ServerState × List (Except HErr DetectOk)
  | st, [] => (st, [])
  | st, c :: cs =>
    let r := runCall st c
    let rest := runCalls r.1 cs
    (rest.1, r.2 :: rest.2)

/-- A submission on which nothing goes wrong externally: detection
succeeded and none of this call's violation inserts raises. -/
def CallOk (c : Call) : Prop :=
  match c.det with
  | .err _ => False
  | .ok r => ∀ k, k < r.violations.length → c.insertFails k = false

/-- Success of a response, as the caller observes it. -/
def respOk (e : Except HErr DetectOk) : Prop :=
  ∃ r, e = Except.ok r

/-! Concrete fixtures used by witnesses and counterexamples. -/

/-- A violation document with every optional field absent. -/
def vrow0 : VRow :=
  { id := none, student_id := none, student_name := none, session_id := none,
    violation_type := none, severity := none, message := none,
    timestamp := none, snapshot_url := none, snapshot_base64 := none }

/-- A fresh active session document. -/
def sessS1 : SessionDoc :=
  { id := "S1", student_id := "STU-ABC123", student_name := "Jane Doe",
    status := "active", total_frames := 0, violation_count := 0, end_time := none }

/-- A server state holding exactly the fresh session `S1`. -/
def stS1 : ServerState :=
  { db := { exam_sessions := [sessS1], violations := [] },
    alerts := [], session_updates := [] }

/-- A server state with an empty sessions collection. -/
def stEmpty : ServerState :=
  { db := { exam_sessions := [], violations := [] },
    alerts := [], session_updates := [] }

/-- A detection result with two findings, as in the end-to-end scenario of
the spec. -/
def detTwo : DetectOk :=
  { violations :=
      [ { type := "looking_away", severity := "medium", message := "Student looking away" },
        { type := "multiple_faces", severity := "high", message := "Multiple faces detected" } ],
    head_pose := some "pitch=1.0,yaw=2.0", snapshot_base64 := some "QUJD" }

/-- A detection result with no findings. -/
def detNone : DetectOk :=
  { violations := [], head_pose := none, snapshot_base64 := none }

/-- Two submissions on session `S1`: one yielding two findings, one
yielding zero findings, with both collaborators well-behaved. -/
def callsS1 : List Call :=
  [ { req := { session_id := "S1" }, det := .ok detTwo,
      upload := fun _ => some "https://store/snap.jpg", insertFails := fun _ => false },
    { req := { session_id := "S1" }, det := .ok detNone,
      upload := fun _ => none, insertFails := fun _ => false } ]

/-- A violation row carrying both a snapshot URL and an inline payload. -/
def w6row : VRow :=
  { vrow0 with violation_type := some "looking_away", severity := some "medium",
               message := some "looked away", timestamp := some "2026-01-01 10:00:00",
               snapshot_url := some "https://cdn/x.jpg", snapshot_base64 := some "QUJD" }

/-- Three violation rows over two kinds, for the percentage witness. -/
def w7rows : List VRow :=
  [ { vrow0 with violation_type := some "looking_away" },
    { vrow0 with violation_type := some "multiple_faces" },
    { vrow0 with violation_type := some "looking_away" } ]

/-- One fully-populated violation row, for the CSV witness. -/
def w9row : VRow :=
  { id := some "V1", student_id := some "STU-ABC123", student_name := some "Jane Doe",
    session_id := some "S1", violation_type := some "looking_away",
    severity := some "medium", message := some "Student, looking away",
    timestamp := some "2026-01-01T10:00:00", snapshot_url := some "https://cdn/x.jpg",
    snapshot_base64 := none }

/-- A sessions collection with one active and one completed session. -/
def stTwoSessions : ServerState :=
  { db := { exam_sessions :=
      [ sessS1,
        { id := "S2", student_id := "STU-XYZ789", student_name := "John Roe",
          status := "completed", total_frames := 5, violation_count := 1,
          end_time := some "2026-01-01T11:00:00" } ], violations := [] },
    alerts := [], session_updates := [] }

/-! Helper lemmas about the `update_one` and `find_one` embeddings. -/

theorem updateFirst_eq_of_find?_none (p : α → Bool) (f : α → α) (l : List α)
    (h : l.find? p = none) : updateFirst p f l = l := by
  induction l with
  | nil => rfl
  | cons x xs ih =>
    by_cases hp : p x
    · simp [List.find?_cons_of_pos _ hp] at h
    · rw [List.find?_cons_of_neg _ hp] at h
      simp [updateFirst, hp, ih h]

theorem find?_updateFirst (p : α → Bool) (f : α → α) (l : List α)
    (hpf : ∀ x, p (f x) = p x) :
    (updateFirst p f l).find? p = (l.find? p).map f := by
  induction l with
  | nil => rfl
  | cons x xs ih =>
    by_cases hp : p x
    · have hfx : p (f x) = true := by rw [hpf]; exact hp
      rw [show updateFirst p f (x :: xs) = f x :: xs by simp [updateFirst, hp],
        List.find?_cons_of_pos _ hfx, List.find?_cons_of_pos _ hp]
      rfl
    · rw [show updateFirst p f (x :: xs) = x :: updateFirst p f xs by simp [updateFirst, hp],
        List.find?_cons_of_neg _ hp, List.find?_cons_of_neg _ hp]
      exact ih

theorem bumpFrameCount_of_find?_none (sid : String) (st : ServerState)
    (h : st.db.exam_sessions.find? (fun s => s.id == sid) = none) :
    bumpFrameCount sid st = st := by
  rw [bumpFrameCount]
  rw [updateFirst_eq_of_find?_none _ _ _ h]

theorem foldl_append_concat (row : VRow → String) :
    ∀ (l : List VRow) (init : String),
      l.foldl (fun out v => out ++ row v) init = init ++ concatStrings (l.map row) := by
  intro l
  induction l with
  | nil => intro init; simp [concatStrings, String.append_empty]
  | cons v vs ih =>
    intro init
    show vs.foldl (fun out v => out ++ row v) (init ++ row v)
      = init ++ concatStrings (row v :: vs.map row)
    rw [ih]
    show init ++ row v ++ concatStrings (vs.map row)
      = init ++ (row v ++ concatStrings (vs.map row))
    exact String.append_assoc ..

/-- C4: a `DetectionError` from the detection collaborator (a result
carrying an `error` key) aborts the whole `ProcessFrame` call as HTTP 400
with the collaborator's message, without touching the database or sending
any notification: the server state is returned exactly as it was. -/
theorem claim_C4_detection_error_aborts (upload : FindingD → Option String)
    (insertFails : Nat → Bool) (st : ServerState) (req : FrameRequest) (msg : String) :
    process_frame upload insertFails st req (.err msg) = (st, .error ⟨400, msg⟩) := rfl

/-- C10: `get_active_sessions` returns only sessions whose status is
"active", never more than 100 of them; when at least 100 are active the
result is truncated to exactly 100, and when at most 100 are active every
active session is returned (in collection order). -/
theorem claim_C10_active_sessions_cap (st : ServerState) :
    (∀ s ∈ get_active_sessions st, s.status = "active") ∧
    (get_active_sessions st).length ≤ 100 ∧
    (100 ≤ (st.db.exam_sessions.filter (fun s => s.status == "active")).length →
      (get_active_sessions st).length = 100) ∧
    ((st.db.exam_sessions.filter (fun s => s.status == "active")).length ≤ 100 →
      get_active_sessions st = st.db.exam_sessions.filter (fun s => s.status == "active")) := by
  refine ⟨?_, ?_, ?_, ?_⟩
  · intro s hs
    have hs' := List.mem_of_mem_take hs
    have hmem := (List.mem_filter.mp hs').2
    simpa using hmem
  · rw [get_active_sessions, List.length_take]
    exact min_le_left _ _
  · intro h
    rw [get_active_sessions, List.length_take]
    omega
  · intro h
    exact List.take_of_length_le h

theorem claim_C10_witness :
    get_active_sessions stTwoSessions
      = stTwoSessions.db.exam_sessions.filter (fun s => s.status == "active") ∧
    (get_active_sessions stTwoSessions).length ≤ 100 :=
  ⟨(claim_C10_active_sessions_cap stTwoSessions).2.2.2 (by decide),
   (claim_C10_active_sessions_cap stTwoSessions).2.1⟩

/-- C9: `export_violations_csv` of the empty list is the empty string
(no header row is emitted at all), while for a non-empty list it is
exactly the header record followed by one CSV record per violation in
input order. -/
theorem claim_C9_csv_empty_header :
    export_violations_csv [] = "" ∧
    ∀ (violations : List VRow), violations ≠ [] →
      export_violations_csv violations
        = csvLine violationCsvHeaders ++ concatStrings (violations.map violationCsvRow) := by
  refine ⟨rfl, ?_⟩
  intro violations hne
  rw [export_violations_csv, if_neg (by simpa using hne)]
  exact foldl_append_concat violationCsvRow violations _

theorem claim_C9_witness :
    export_violations_csv [] = "" ∧
    export_violations_csv [w9row]
      = csvLine violationCsvHeaders ++ concatStrings ([w9row].map violationCsvRow) :=
  ⟨claim_C9_csv_empty_header.1, claim_C9_csv_empty_header.2 [w9row] (by decide)⟩

/-- C2 as stated is false on the code: `end_exam_session` never inspects
the session's status, so the second call on the same id also succeeds —
and it does modify the session again (the end timestamp is overwritten),
as this concrete run shows. -/
theorem claim_C2_counterexample :
    (end_exam_session "t1" stS1 "S1").2 = Except.ok "Session ended successfully" ∧
    (end_exam_session "t2" (end_exam_session "t1" stS1 "S1").1 "S1").2
      = Except.ok "Session ended successfully" ∧
    (end_exam_session "t2" (end_exam_session "t1" stS1 "S1").1 "S1").1
      ≠ (end_exam_session "t1" stS1 "S1").1 := by decide

/-- C2 amended: `EndSession` on an existing id always succeeds, whatever
the session's status — calling it twice yields success twice, the second
call updating the session again (its end timestamp becomes that of the
second call); only an unknown id fails, with `NotFoundError` (HTTP 404)
and no state change. -/
theorem claim_C2_end_session (now1 now2 : String) (st : ServerState) (sid : String) :
    (∀ s0, st.db.exam_sessions.find? (fun s => s.id == sid) = some s0 →
      (end_exam_session now1 st sid).2 = Except.ok "Session ended successfully" ∧
      (end_exam_session now2 (end_exam_session now1 st sid).1 sid).2
        = Except.ok "Session ended successfully" ∧
      (∃ s2, (end_exam_session now2 (end_exam_session now1 st sid).1 sid).1.db.exam_sessions.find?
            (fun s => s.id == sid) = some s2 ∧
          s2.status = "completed" ∧ s2.end_time = some now2)) ∧
    (st.db.exam_sessions.find? (fun s => s.id == sid) = none →
      end_exam_session now1 st sid = (st, Except.error ⟨404, "Session not found"⟩)) := by
  constructor
  · intro s0 h0
    have h1 : (end_exam_session now1 st sid).1.db.exam_sessions.find? (fun s => s.id == sid)
        = some { s0 with end_time := some now1, status := "completed" } := by
      rw [end_exam_session, h0]
      simpa using find?_updateFirst (fun s => s.id == sid)
        (fun s => { s with end_time := some now1, status := "completed" })
        st.db.exam_sessions (fun x => rfl) ▸ (by rw [h0]; rfl)
    refine ⟨by rw [end_exam_session, h0], ?_, ?_⟩
    · rw [end_exam_session, h1]
    · rw [end_exam_session, h1]
      refine ⟨{ s0 with end_time := some now2, status := "completed" }, ?_, rfl, rfl⟩
      simpa using find?_updateFirst (fun s => s.id == sid)
        (fun s => { s with end_time := some now2, status := "completed" })
        (end_exam_session now1 st sid).1.db.exam_sessions (fun x => rfl) ▸ (by rw [h1]; rfl)
  · intro h
    rw [end_exam_session, h]

theorem claim_C2_witness :
    (end_exam_session "u1" stS1 "S1").2 = Except.ok "Session ended successfully" ∧
    (end_exam_session "u2" (end_exam_session "u1" stS1 "S1").1 "S1").2
      = Except.ok "Session ended successfully" := by
  have h := (claim_C2_end_session "u1" "u2" stS1 "S1").1 sessS1 (by decide)
  exact ⟨h.1, h.2.1⟩

/-- C3 as stated is false on the code: `process_frame` never looks the
session up before incrementing, so on an unknown id with zero findings the
call returns plain success, not `NotFoundError` — here concretely: the
state is untouched but the response is `ok`, and in particular not the 404
error. -/
theorem claim_C3_counterexample :
    process_frame (fun _ => none) (fun _ => false) stEmpty { session_id := "S-missing" }
        (.ok detNone) = (stEmpty, Except.ok detNone) ∧
    (process_frame (fun _ => none) (fun _ => false) stEmpty { session_id := "S-missing" }
        (.ok detNone)).2 ≠ Except.error ⟨404, "Session not found"⟩ := by decide

/-- C3 amended: a `ProcessFrame` call on an unknown session id indeed
performs no side effect — the counter update matches no document, no
violation is persisted and no notification is sent — but it does not
return `NotFoundError`: with zero findings it succeeds outright, and with
findings it fails with a generic HTTP 500 (the `None` session document is
dereferenced) before any write. -/
theorem claim_C3_unknown_session (upload : FindingD → Option String)
    (insertFails : Nat → Bool) (st : ServerState) (req : FrameRequest) (r : DetectOk)
    (h : st.db.exam_sessions.find? (fun s => s.id == req.session_id) = none) :
    (process_frame upload insertFails st req (.ok r)).1 = st ∧
    (process_frame upload insertFails st req (.ok r)).2 =
      (if r.violations.isEmpty then Except.ok r else Except.error ⟨500, "TypeError"⟩) := by
  have hbump := bumpFrameCount_of_find?_none req.session_id st h
  rcases hr : r.violations with _ | ⟨f, fs⟩
  · simp [process_frame, hbump, hr]
  · simp [process_frame, hbump, hr, h]

theorem claim_C3_witness :
    (process_frame (fun _ => none) (fun _ => false) stEmpty { session_id := "S-missing" }
        (.ok detTwo)).1 = stEmpty ∧
    (process_frame (fun _ => none) (fun _ => false) stEmpty { session_id := "S-missing" }
        (.ok detTwo)).2 = Except.error ⟨500, "TypeError"⟩ := by
  have h := claim_C3_unknown_session (fun _ => none) (fun _ => false) stEmpty
    { session_id := "S-missing" } detTwo (by decide)
  exact ⟨h.1, by rw [h.2]; rfl⟩

/-! Effect of the per-finding body and of the loop on the tracked state. -/

theorem applyFinding_violations_length (upload : FindingD → Option String)
    (sid : String) (sess : SessionDoc) (b64 hp : Option String) (fd : FindingD)
    (st : ServerState) :
    (applyFinding upload sid sess b64 hp fd st).db.violations.length
      = st.db.violations.length + 1 := by
  simp [applyFinding]

theorem applyFinding_alerts_length (upload : FindingD → Option String)
    (sid : String) (sess : SessionDoc) (b64 hp : Option String) (fd : FindingD)
    (st : ServerState) :
    (applyFinding upload sid sess b64 hp fd st).alerts.length = st.alerts.length + 1 := by
  simp [applyFinding]

theorem applyFinding_find? (upload : FindingD → Option String) (sid : String)
    (sess : SessionDoc) (b64 hp : Option String) (fd : FindingD) (st : ServerState)
    (scur : SessionDoc)
    (hfind : st.db.exam_sessions.find? (fun s => s.id == sid) = some scur) :
    (applyFinding upload sid sess b64 hp fd st).db.exam_sessions.find? (fun s => s.id == sid)
      = some { scur with violation_count := scur.violation_count + 1 } := by
  show (updateFirst (fun s => s.id == sid)
      (fun s => { s with violation_count := s.violation_count + 1 })
      st.db.exam_sessions).find? (fun s => s.id == sid) = _
  rw [find?_updateFirst (fun s => s.id == sid)
    (fun s => { s with violation_count := s.violation_count + 1 })
    st.db.exam_sessions (fun x => rfl), hfind]
  rfl

theorem bumpFrameCount_find? (sid : String) (st : ServerState) (s0 : SessionDoc)
    (hfind : st.db.exam_sessions.find? (fun s => s.id == sid) = some s0) :
    (bumpFrameCount sid st).db.exam_sessions.find? (fun s => s.id == sid)
      = some { s0 with total_frames := s0.total_frames + 1 } := by
  show (updateFirst (fun s => s.id == sid)
      (fun s => { s with total_frames := s.total_frames + 1 })
      st.db.exam_sessions).find? (fun s => s.id == sid) = _
  rw [find?_updateFirst (fun s => s.id == sid)
    (fun s => { s with total_frames := s.total_frames + 1 })
    st.db.exam_sessions (fun x => rfl), hfind]
  rfl

theorem processViolationLoop_ok (upload : FindingD → Option String)
    (insertFails : Nat → Bool) (sid : String) (sess : SessionDoc) (b64 hp : Option String) :
    ∀ (fds : List FindingD) (k : Nat) (st : ServerState) (scur : SessionDoc),
      (∀ i, i < fds.length → insertFails (k + i) = false) →
      st.db.exam_sessions.find? (fun s => s.id == sid) = some scur →
      ∃ stF, processViolationLoop upload insertFails sid sess b64 hp fds k st = (stF, none)
        ∧ stF.db.violations.length = st.db.violations.length + fds.length
        ∧ stF.alerts.length = st.alerts.length + fds.length
        ∧ stF.db.exam_sessions.find? (fun s => s.id == sid)
            = some { scur with violation_count := scur.violation_count + fds.length } := by
  intro fds
  induction fds with
  | nil =>
    intro k st scur hnf hfind
    exact ⟨st, rfl, by simp, by simp, by simpa using hfind⟩
  | cons fd rest ih =>
    intro k st scur hnf hfind
    have hk : insertFails k = false := by simpa using hnf 0 (by simp)
    have hstep : processViolationLoop upload insertFails sid sess b64 hp (fd :: rest) k st
        = processViolationLoop upload insertFails sid sess b64 hp rest (k + 1)
            (applyFinding upload sid sess b64 hp fd st) := by
      rw [processViolationLoop, hk]
      rfl
    have hnf1 : ∀ i, i < rest.length → insertFails (k + 1 + i) = false := by
      intro i hi
      have := hnf (i + 1) (by simpa using Nat.succ_lt_succ hi)
      rwa [show k + (i + 1) = k + 1 + i by omega] at this
    obtain ⟨stF, heq, hv, ha, hf⟩ := ih (k + 1) (applyFinding upload sid sess b64 hp fd st)
      { scur with violation_count := scur.violation_count + 1 } hnf1
      (applyFinding_find? upload sid sess b64 hp fd st scur hfind)
    refine ⟨stF, hstep ▸ heq, ?_, ?_, ?_⟩
    · rw [hv, applyFinding_violations_length]
      simp [Nat.add_assoc, Nat.add_comm 1 rest.length]
    · rw [ha, applyFinding_alerts_length]
      simp [Nat.add_assoc, Nat.add_comm 1 rest.length]
    · rw [hf]
      have : scur.violation_count + 1 + rest.length
          = scur.violation_count + (rest.length + 1) := by omega
      simp [this]

theorem processViolationLoop_fail (upload : FindingD → Option String)
    (insertFails : Nat → Bool) (sid : String) (sess : SessionDoc) (b64 hp : Option String) :
    ∀ (pre : List FindingD) (fk : FindingD) (post : List FindingD) (k : Nat)
      (st : ServerState) (scur : SessionDoc),
      (∀ i, i < pre.length → insertFails (k + i) = false) →
      insertFails (k + pre.length) = true →
      st.db.exam_sessions.find? (fun s => s.id == sid) = some scur →
      ∃ stF, processViolationLoop upload insertFails sid sess b64 hp (pre ++ fk :: post) k st
          = (stF, some ⟨500, "StorageError"⟩)
        ∧ stF.db.violations.length = st.db.violations.length + pre.length
        ∧ stF.alerts.length = st.alerts.length + pre.length
        ∧ stF.db.exam_sessions.find? (fun s => s.id == sid)
            = some { scur with violation_count := scur.violation_count + pre.length } := by
  intro pre
  induction pre with
  | nil =>
    intro fk post k st scur hnf hfail hfind
    have hk : insertFails k = true := by simpa using hfail
    refine ⟨st, ?_, by simp, by simp, by simpa using hfind⟩
    rw [show ([] : List FindingD) ++ fk :: post = fk :: post from rfl,
      processViolationLoop, hk]
    rfl
  | cons fd pre' ih =>
    intro fk post k st scur hnf hfail hfind
    have hk : insertFails k = false := by simpa using hnf 0 (by simp)
    have hstep : processViolationLoop upload insertFails sid sess b64 hp
          ((fd :: pre') ++ fk :: post) k st
        = processViolationLoop upload insertFails sid sess b64 hp (pre' ++ fk :: post) (k + 1)
            (applyFinding upload sid sess b64 hp fd st) := by
      rw [show (fd :: pre') ++ fk :: post = fd :: (pre' ++ fk :: post) from rfl,
        processViolationLoop, hk]
      rfl
    have hnf1 : ∀ i, i < pre'.length → insertFails (k + 1 + i) = false := by
      intro i hi
      have := hnf (i + 1) (by simpa using Nat.succ_lt_succ hi)
      rwa [show k + (i + 1) = k + 1 + i by omega] at this
    have hfail1 : insertFails (k + 1 + pre'.length) = true := by
      have h2 : k + (fd :: pre').length = k + 1 + pre'.length := by
        simp only [List.length_cons]
        omega
      rwa [h2] at hfail
    obtain ⟨stF, heq, hv, ha, hf⟩ := ih fk post (k + 1)
      (applyFinding upload sid sess b64 hp fd st)
      { scur with violation_count := scur.violation_count + 1 } hnf1 hfail1
      (applyFinding_find? upload sid sess b64 hp fd st scur hfind)
    refine ⟨stF, hstep ▸ heq, ?_, ?_, ?_⟩
    · rw [hv, applyFinding_violations_length]
      simp [Nat.add_assoc, Nat.add_comm 1 pre'.length]
    · rw [ha, applyFinding_alerts_length]
      simp [Nat.add_assoc, Nat.add_comm 1 pre'.length]
    · rw [hf]
      have : scur.violation_count + 1 + pre'.length
          = scur.violation_count + (pre'.length + 1) := by omega
      simp [this]

/-- A fully successful `process_frame` call on an existing session:
the response is the detector's result, the frame counter is bumped once,
the violation counter is bumped once per finding, and exactly one record
and one alert are produced per finding. -/
theorem process_frame_all_ok (upload : FindingD → Option String)
    (insertFails : Nat → Bool) (st : ServerState) (req : FrameRequest)
    (r : DetectOk) (s0 : SessionDoc)
    (hok : ∀ k, k < r.violations.length → insertFails k = false)
    (hfind : st.db.exam_sessions.find? (fun s => s.id == req.session_id) = some s0) :
    ∃ stF, process_frame upload insertFails st req (.ok r) = (stF, .ok r)
      ∧ stF.db.violations.length = st.db.violations.length + r.violations.length
      ∧ stF.alerts.length = st.alerts.length + r.violations.length
      ∧ stF.db.exam_sessions.find? (fun s => s.id == req.session_id)
          = some { s0 with total_frames := s0.total_frames + 1,
                           violation_count := s0.violation_count + r.violations.length } := by
  have hbump := bumpFrameCount_find? req.session_id st s0 hfind
  rcases hr : r.violations with _ | ⟨fd, fds⟩
  · refine ⟨bumpFrameCount req.session_id st, ?_, by simp [bumpFrameCount, hr], ?_, ?_⟩
    · simp [process_frame, hr]
    · simp [bumpFrameCount, hr]
    · rw [hbump]
      simp
  · have hnf : ∀ i, i < (fd :: fds).length → insertFails (0 + i) = false := by
      intro i hi
      rw [Nat.zero_add]
      exact hok i (hr ▸ hi)
    obtain ⟨stF, heq, hv, ha, hf⟩ := processViolationLoop_ok upload insertFails
      req.session_id { s0 with total_frames := s0.total_frames + 1 } r.snapshot_base64
      r.head_pose (fd :: fds) 0 (bumpFrameCount req.session_id st)
      { s0 with total_frames := s0.total_frames + 1 } hnf hbump
    refine ⟨stF, ?_, ?_, ?_, ?_⟩
    · rw [process_frame]
      simp only [hr, List.isEmpty_cons, Bool.false_eq_true, if_false, hbump]
      rw [heq]
    · rw [hv]
      simp [bumpFrameCount, hr]
    · rw [ha]
      simp [bumpFrameCount, hr]
    · rw [hf]

/-- C5 as stated is false on the code: the per-finding loop has no
exception handler, so when persisting the first of two findings raises a
storage error the remaining finding is not attempted — concretely, the
call aborts with HTTP 500 and no record and no alert at all is produced,
although the detector returned a second finding. -/
theorem claim_C5_counterexample :
    (process_frame (fun _ => some "https://store/snap.jpg") (fun k => k == 0) stS1
        { session_id := "S1" } (.ok detTwo)).1.db.violations = [] ∧
    (process_frame (fun _ => some "https://store/snap.jpg") (fun k => k == 0) stS1
        { session_id := "S1" } (.ok detTwo)).1.alerts = [] ∧
    (process_frame (fun _ => some "https://store/snap.jpg") (fun k => k == 0) stS1
        { session_id := "S1" } (.ok detTwo)).2 = Except.error ⟨500, "StorageError"⟩ := by
  decide

/-- C5 amended: a storage failure while persisting one finding aborts the
rest of the `ProcessFrame` call with HTTP 500 — the findings after the
failing one are not attempted (not persisted, not counted, not notified) —
while everything done before the failure remains: the frame-counter
increment and, for each earlier finding, its record, its counter increment
and its alert. -/
theorem claim_C5_storage_error (upload : FindingD → Option String)
    (insertFails : Nat → Bool) (st : ServerState) (req : FrameRequest)
    (r : DetectOk) (s0 : SessionDoc) (pre : List FindingD) (fk : FindingD)
    (post : List FindingD)
    (hv : r.violations = pre ++ fk :: post)
    (hpre : ∀ i, i < pre.length → insertFails i = false)
    (hfail : insertFails pre.length = true)
    (hfind : st.db.exam_sessions.find? (fun s => s.id == req.session_id) = some s0) :
    ∃ stF, process_frame upload insertFails st req (.ok r)
        = (stF, .error ⟨500, "StorageError"⟩)
      ∧ stF.db.violations.length = st.db.violations.length + pre.length
      ∧ stF.alerts.length = st.alerts.length + pre.length
      ∧ stF.db.exam_sessions.find? (fun s => s.id == req.session_id)
          = some { s0 with total_frames := s0.total_frames + 1,
                           violation_count := s0.violation_count + pre.length } := by
  have hbump := bumpFrameCount_find? req.session_id st s0 hfind
  have hnf : ∀ i, i < pre.length → insertFails (0 + i) = false := by
    intro i hi
    rw [Nat.zero_add]
    exact hpre i hi
  obtain ⟨stF, heq, hvl, ha, hf⟩ := processViolationLoop_fail upload insertFails
    req.session_id { s0 with total_frames := s0.total_frames + 1 } r.snapshot_base64
    r.head_pose pre fk post 0 (bumpFrameCount req.session_id st)
    { s0 with total_frames := s0.total_frames + 1 } hnf (by simpa using hfail) hbump
  refine ⟨stF, ?_, ?_, ?_, ?_⟩
  · rw [process_frame]
    have hne : r.violations.isEmpty = false := by
      rw [hv]
      cases pre <;> rfl
    simp only [hne, Bool.false_eq_true, if_false, hbump]
    rw [hv, heq]
  · rw [hvl]
    simp [bumpFrameCount]
  · rw [ha]
    simp [bumpFrameCount]
  · exact hf

theorem claim_C5_witness :
    ∃ stF, process_frame (fun _ => some "https://store/snap.jpg") (fun k => k == 1) stS1
        { session_id := "S1" } (.ok detTwo) = (stF, .error ⟨500, "StorageError"⟩)
      ∧ stF.db.violations.length = stS1.db.violations.length + 1
      ∧ stF.alerts.length = stS1.alerts.length + 1
      ∧ stF.db.exam_sessions.find? (fun s => s.id == "S1")
          = some { sessS1 with total_frames := sessS1.total_frames + 1,
                               violation_count := sessS1.violation_count + 1 } := by
  have h := claim_C5_storage_error (fun _ => some "https://store/snap.jpg")
    (fun k => k == 1) stS1 { session_id := "S1" } detTwo sessS1
    [{ type := "looking_away", severity := "medium", message := "Student looking away" }]
    { type := "multiple_faces", severity := "high", message := "Multiple faces detected" }
    [] (by decide) (by decide) (by decide) (by decide)
  simpa using h

/-- Running a sequence of well-behaved submissions on an existing session:
every response is a success, the frame counter grows by one per call, and
the violation counter grows exactly by the number of violation records
appended to the store. -/
theorem runCalls_all_ok (sid : String) :
    ∀ (calls : List Call) (st : ServerState) (s0 : SessionDoc),
      st.db.exam_sessions.find? (fun s => s.id == sid) = some s0 →
      (∀ c ∈ calls, c.req.session_id = sid) →
      (∀ c ∈ calls, CallOk c) →
      ∃ s1, (runCalls st calls).1.db.exam_sessions.find? (fun s => s.id == sid) = some s1
        ∧ s1.total_frames = s0.total_frames + calls.length
        ∧ s1.violation_count + st.db.violations.length
            = s0.violation_count + (runCalls st calls).1.db.violations.length
        ∧ ∀ res ∈ (runCalls st calls).2, respOk res := by
  intro calls
  induction calls with
  | nil =>
    intro st s0 hfind _ _
    exact ⟨s0, hfind, by simp [runCalls], by simp [runCalls], by simp [runCalls]⟩
  | cons c cs ih =>
    intro st s0 hfind hreq hok
    have hcr : c.req.session_id = sid := hreq c (by simp)
    have hco : CallOk c := hok c (by simp)
    rcases hdet : c.det with msg | r
    · rw [CallOk, hdet] at hco
      exact hco.elim
    · have hok' : ∀ k, k < r.violations.length → c.insertFails k = false := by
        rw [CallOk, hdet] at hco
        exact hco
      have hfind' : st.db.exam_sessions.find? (fun s => s.id == c.req.session_id)
          = some s0 := by
        rw [hcr]
        exact hfind
      obtain ⟨stF, heq, hlen, halerts, hf⟩ :=
        process_frame_all_ok c.upload c.insertFails st c.req r s0 hok' hfind'
      have hrc : runCall st c = (stF, .ok r) := by
        rw [runCall, hdet]
        exact heq
      have hfindF : stF.db.exam_sessions.find? (fun s => s.id == sid)
          = some { s0 with total_frames := s0.total_frames + 1,
                           violation_count := s0.violation_count + r.violations.length } := by
        rw [← hcr]
        exact hf
      obtain ⟨s1, h1, h2, h3, h4⟩ := ih stF
        { s0 with total_frames := s0.total_frames + 1,
                  violation_count := s0.violation_count + r.violations.length } hfindF
        (fun c' hc' => hreq c' (List.mem_cons_of_mem _ hc'))
        (fun c' hc' => hok c' (List.mem_cons_of_mem _ hc'))
      dsimp only at h2 h3
      have hr1 : (runCalls st (c :: cs)).1 = (runCalls stF cs).1 := by
        simp [runCalls, hrc]
      have hr2 : (runCalls st (c :: cs)).2 = Except.ok r :: (runCalls stF cs).2 := by
        simp [runCalls, hrc]
      refine ⟨s1, ?_, ?_, ?_, ?_⟩
      · rw [hr1]
        exact h1
      · simp only [List.length_cons]
        omega
      · rw [hr1]
        omega
      · rw [hr2]
        intro res hres
        rcases List.mem_cons.mp hres with h | h
        · exact ⟨r, h⟩
        · exact h4 res h

/-- C1: over any sequence of well-behaved `ProcessFrame` submissions on
the same, initially fresh session (frame and violation counters zero),
every call succeeds, the session's frame counter ends up equal to the
number of calls — it is bumped exactly once per call, also for calls with
zero findings — and the violation counter ends up equal to the number of
violation records appended to the store during those calls, never more
and never less. -/
theorem claim_C1_counters (sid : String) (calls : List Call) (st : ServerState)
    (s0 : SessionDoc)
    (hfind : st.db.exam_sessions.find? (fun s => s.id == sid) = some s0)
    (hf0 : s0.total_frames = 0) (hv0 : s0.violation_count = 0)
    (hreq : ∀ c ∈ calls, c.req.session_id = sid)
    (hok : ∀ c ∈ calls, CallOk c) :
    ∃ s1, (runCalls st calls).1.db.exam_sessions.find? (fun s => s.id == sid) = some s1
      ∧ (∀ res ∈ (runCalls st calls).2, respOk res)
      ∧ s1.total_frames = calls.length
      ∧ (runCalls st calls).1.db.violations.length
          = st.db.violations.length + s1.violation_count := by
  obtain ⟨s1, h1, h2, h3, h4⟩ := runCalls_all_ok sid calls st s0 hfind hreq hok
  exact ⟨s1, h1, h4, by omega, by omega⟩

theorem claim_C1_witness :
    ∃ s1, (runCalls stS1 callsS1).1.db.exam_sessions.find? (fun s => s.id == "S1") = some s1
      ∧ (∀ res ∈ (runCalls stS1 callsS1).2, respOk res)
      ∧ s1.total_frames = callsS1.length
      ∧ (runCalls stS1 callsS1).1.db.violations.length
          = stS1.db.violations.length + s1.violation_count := by
  refine claim_C1_counters "S1" callsS1 stS1 sessS1 (by decide) rfl rfl ?_ ?_
  · intro c hc
    rcases List.mem_cons.mp hc with h | h
    · rw [h]
    · rcases List.mem_cons.mp h with h2 | h2
      · rw [h2]
      · simp at h2
  · intro c hc
    rcases List.mem_cons.mp hc with h | h
    · rw [h, CallOk]
      intro k _
      rfl
    · rcases List.mem_cons.mp h with h2 | h2
      · rw [h2, CallOk]
        intro k _
        rfl
      · simp at h2

/-! Lemmas about the dict-tally and the stable descending sort. -/

theorem mem_insertCountDesc (x z : String × Nat) (l : List (String × Nat)) :
    z ∈ insertCountDesc x l ↔ z = x ∨ z ∈ l := by
  induction l with
  | nil => simp [insertCountDesc]
  | cons y ys ih =>
    rw [insertCountDesc]
    by_cases h : y.2 ≤ x.2
    · rw [if_pos h]
      simp
    · rw [if_neg h]
      simp [ih]
      tauto

theorem pairwise_insertCountDesc (x : String × Nat) (l : List (String × Nat))
    (h : l.Pairwise (fun a b => b.2 ≤ a.2)) :
    (insertCountDesc x l).Pairwise (fun a b => b.2 ≤ a.2) := by
  induction l with
  | nil => simp [insertCountDesc]
  | cons y ys ih =>
    rcases List.pairwise_cons.mp h with ⟨hy, hys⟩
    rw [insertCountDesc]
    by_cases hc : y.2 ≤ x.2
    · rw [if_pos hc]
      refine List.pairwise_cons.mpr ⟨?_, h⟩
      intro z hz
      rcases List.mem_cons.mp hz with rfl | hz'
      · exact hc
      · exact le_trans (hy z hz') hc
    · rw [if_neg hc]
      refine List.pairwise_cons.mpr ⟨?_, ih hys⟩
      intro z hz
      rcases (mem_insertCountDesc x z ys).mp hz with rfl | hz'
      · omega
      · exact hy z hz'

theorem sortCountDesc_pairwise (l : List (String × Nat)) :
    (sortCountDesc l).Pairwise (fun a b => b.2 ≤ a.2) := by
  induction l with
  | nil => simp [sortCountDesc]
  | cons x xs ih => exact pairwise_insertCountDesc x _ ih

theorem filter_insertCountDesc_of_ne (c : Nat) (x : String × Nat)
    (l : List (String × Nat)) (hx : (x.2 == c) = false) :
    (insertCountDesc x l).filter (fun p => p.2 == c)
      = l.filter (fun p => p.2 == c) := by
  induction l with
  | nil => simp [insertCountDesc, hx]
  | cons y ys ih =>
    rw [insertCountDesc]
    by_cases hc : y.2 ≤ x.2
    · rw [if_pos hc]
      simp [List.filter_cons, hx]
    · rw [if_neg hc]
      simp [List.filter_cons, ih]

theorem filter_insertCountDesc_of_eq (c : Nat) (x : String × Nat)
    (l : List (String × Nat)) (hsort : l.Pairwise (fun a b => b.2 ≤ a.2))
    (hx : (x.2 == c) = true) :
    (insertCountDesc x l).filter (fun p => p.2 == c)
      = x :: l.filter (fun p => p.2 == c) := by
  induction l with
  | nil => simp [insertCountDesc, hx]
  | cons y ys ih =>
    rcases List.pairwise_cons.mp hsort with ⟨hy, hys⟩
    rw [insertCountDesc]
    by_cases hc : y.2 ≤ x.2
    · rw [if_pos hc]
      simp [List.filter_cons, hx]
    · rw [if_neg hc]
      have hxc : x.2 = c := by simpa using hx
      have hyc : (y.2 == c) = false := by
        simp
        omega
      simp [List.filter_cons, hyc, ih hys]

theorem filter_sortCountDesc (c : Nat) (l : List (String × Nat)) :
    (sortCountDesc l).filter (fun p => p.2 == c) = l.filter (fun p => p.2 == c) := by
  induction l with
  | nil => rfl
  | cons x xs ih =>
    show (insertCountDesc x (sortCountDesc xs)).filter _ = _
    by_cases hx : (x.2 == c) = true
    · rw [filter_insertCountDesc_of_eq c x _ (sortCountDesc_pairwise xs) hx, ih]
      simp [List.filter_cons, hx]
    · have hx' : (x.2 == c) = false := by simpa using hx
      rw [filter_insertCountDesc_of_ne c x _ hx', ih]
      simp [List.filter_cons, hx']

theorem map_fst_bump (k : String) (acc : List (String × Nat)) :
    (bump k acc).map Prod.fst
      = if acc.any (fun p => p.1 == k) then acc.map Prod.fst
        else acc.map Prod.fst ++ [k] := by
  induction acc with
  | nil => simp [bump]
  | cons p ps ih =>
    rw [bump]
    by_cases hp : (p.1 == k) = true
    · simp [hp]
    · have hp' : (p.1 == k) = false := Bool.eq_false_iff.mpr hp
      by_cases hq : (ps.any (fun q => q.1 == k)) = true
      · simp [hp', hq, ih]
      · have hq' : (ps.any (fun q => q.1 == k)) = false := Bool.eq_false_iff.mpr hq
        simp [hp', hq', ih]

theorem any_map_fst (acc : List (String × Nat)) (k : String) :
    (acc.map Prod.fst).any (fun s => s == k) = acc.any (fun p => p.1 == k) := by
  induction acc with
  | nil => rfl
  | cons p ps ih => simp [ih]

theorem countByKey_fold_fst (ks : List String) :
    ∀ acc : List (String × Nat),
      (ks.foldl (fun a k => bump k a) acc).map Prod.fst
        = ks.foldl (fun a k => if a.any (fun s => s == k) then a else a ++ [k])
            (acc.map Prod.fst) := by
  induction ks with
  | nil => intro acc; rfl
  | cons k ks ih =>
    intro acc
    show (ks.foldl (fun a k => bump k a) (bump k acc)).map Prod.fst = _
    rw [ih (bump k acc), map_fst_bump]
    show ks.foldl _ _
        = ks.foldl (fun a k => if a.any (fun s => s == k) then a else a ++ [k])
            (if (acc.map Prod.fst).any (fun s => s == k) then acc.map Prod.fst
             else acc.map Prod.fst ++ [k])
    rw [any_map_fst]

theorem map_fst_countByKey (ks : List String) :
    (countByKey ks).map Prod.fst = firstOccurrences ks := by
  have h := countByKey_fold_fst ks []
  simpa [countByKey, firstOccurrences] using h

/-- C8: the per-student summary that `export_summary_csv` and
`generate_html_report` iterate is the tally sorted descending by count;
entries with equal counts keep the tally's relative order, and the tally
lists students (keyed `student_id|student_name`) in order of their first
occurrence in the input. -/
theorem claim_C8_student_ranking (violations : List VRow) :
    (rankedStudentCounts violations).Pairwise (fun a b => b.2 ≤ a.2) ∧
    (∀ c : Nat, (rankedStudentCounts violations).filter (fun p => p.2 == c)
        = (studentViolationCounts violations).filter (fun p => p.2 == c)) ∧
    (studentViolationCounts violations).map Prod.fst
      = firstOccurrences (violations.map studentKey) :=
  ⟨sortCountDesc_pairwise _, fun c => filter_sortCountDesc c _, map_fst_countByKey _⟩

/-! Lemmas for the percentage table: the tally's counts sum to the number
of violations, the sort permutes the tally, and rounding to a tenth moves
each value by at most 1/20. -/

theorem insertCountDesc_perm (x : String × Nat) (l : List (String × Nat)) :
    List.Perm (insertCountDesc x l) (x :: l) := by
  induction l with
  | nil => exact List.Perm.refl _
  | cons y ys ih =>
    rw [insertCountDesc]
    by_cases h : y.2 ≤ x.2
    · rw [if_pos h]
    · rw [if_neg h]
      exact (ih.cons y).trans (List.Perm.swap x y ys)

theorem sortCountDesc_perm (l : List (String × Nat)) :
    List.Perm (sortCountDesc l) l := by
  induction l with
  | nil => exact List.Perm.refl _
  | cons x xs ih =>
    exact (insertCountDesc_perm x (sortCountDesc xs)).trans (ih.cons x)

theorem sum_snd_bump (k : String) (acc : List (String × Nat)) :
    ((bump k acc).map (fun p => p.2)).sum = ((acc.map (fun p => p.2)).sum) + 1 := by
  induction acc with
  | nil => simp [bump]
  | cons p ps ih =>
    rw [bump]
    by_cases hp : (p.1 == k) = true
    · simp [hp]
      omega
    · have hp' : (p.1 == k) = false := Bool.eq_false_iff.mpr hp
      simp [hp', ih]
      omega

theorem countByKey_sum_fold (ks : List String) :
    ∀ acc : List (String × Nat),
      ((ks.foldl (fun a k => bump k a) acc).map (fun p => p.2)).sum
        = ((acc.map (fun p => p.2)).sum) + ks.length := by
  induction ks with
  | nil => intro acc; simp
  | cons k ks ih =>
    intro acc
    show ((ks.foldl (fun a k => bump k a) (bump k acc)).map (fun p => p.2)).sum = _
    rw [ih (bump k acc), sum_snd_bump]
    simp
    omega

theorem countByKey_sum (ks : List String) :
    ((countByKey ks).map (fun p => p.2)).sum = ks.length := by
  have h := countByKey_sum_fold ks []
  simpa [countByKey] using h

theorem sum_natCast (l : List Nat) :
    ((l.sum : Nat) : ℚ) = (l.map (Nat.cast : ℕ → ℚ)).sum := by
  induction l with
  | nil => simp
  | cons x xs ih => simp [ih]

theorem abs_roundTenth_sub (q : ℚ) : |roundTenth q - q| ≤ 1 / 20 := by
  rw [roundTenth]
  have h1 : ((⌊q * 10 + 1 / 2⌋ : ℤ) : ℚ) ≤ q * 10 + 1 / 2 := Int.floor_le _
  have h2 : q * 10 + 1 / 2 - 1 < ((⌊q * 10 + 1 / 2⌋ : ℤ) : ℚ) := Int.sub_one_lt_floor _
  rw [abs_le]
  constructor
  · linarith
  · linarith

theorem abs_sum_sub_sum_le (f g : (String × Nat) → ℚ) (ε : ℚ) :
    ∀ l : List (String × Nat), (∀ x ∈ l, |f x - g x| ≤ ε) →
      |(l.map f).sum - (l.map g).sum| ≤ l.length * ε := by
  intro l
  induction l with
  | nil => intro _; simp
  | cons x xs ih =>
    intro h
    have hx := h x (by simp)
    have hxs := ih (fun y hy => h y (by simp [hy]))
    simp only [List.map_cons, List.sum_cons, List.length_cons]
    have hre : f x + (xs.map f).sum - (g x + (xs.map g).sum)
        = (f x - g x) + ((xs.map f).sum - (xs.map g).sum) := by ring
    rw [hre]
    calc |(f x - g x) + ((xs.map f).sum - (xs.map g).sum)|
        ≤ |f x - g x| + |(xs.map f).sum - (xs.map g).sum| := abs_add _ _
      _ ≤ ε + xs.length * ε := add_le_add hx hxs
      _ = ((xs.length + 1 : ℕ) : ℚ) * ε := by push_cast; ring

theorem exact_percentage_sum (violations : List VRow) (hpos : 0 < violations.length) :
    ((sortCountDesc (violationTypeCounts violations)).map
        (fun p => (p.2 : ℚ) / (violations.length : ℚ) * 100)).sum = 100 := by
  have hsum : ((sortCountDesc (violationTypeCounts violations)).map (fun p => p.2)).sum
      = violations.length := by
    have hperm := (sortCountDesc_perm (violationTypeCounts violations)).map (fun p => p.2)
    rw [hperm.sum_eq]
    rw [violationTypeCounts, countByKey_sum]
    simp
  rw [show (fun p : String × Nat => (p.2 : ℚ) / (violations.length : ℚ) * 100)
      = (fun p : String × Nat => (p.2 : ℚ) * (100 / (violations.length : ℚ))) from by
    funext p
    ring]
  rw [List.sum_map_mul_right]
  have hc : ((sortCountDesc (violationTypeCounts violations)).map
      (fun p => ((p.2 : ℕ) : ℚ))).sum = ((violations.length : ℕ) : ℚ) := by
    rw [show (fun p : String × Nat => ((p.2 : ℕ) : ℚ))
        = (Nat.cast : ℕ → ℚ) ∘ (fun p : String × Nat => p.2) from rfl]
    rw [← List.map_map, ← sum_natCast, hsum]
  rw [hc]
  have hT0 : ((violations.length : ℕ) : ℚ) ≠ 0 := by
    exact_mod_cast hpos.ne'
  field_simp

/-- C7: each percentage row of the student report carries the rendered
value of `count / total * 100` to one decimal place; the rows are exactly
the sorted per-kind counts, there are no rows at all when the student has
zero violations (so the division is never reached), and when the total is
positive the rendered percentages sum to 100 up to the rounding of each
row (at most 1/20 of a percent per row). -/
theorem claim_C7_percentages (violations : List VRow) :
    (percentageRows violations).map (fun r => (r.1, r.2.1))
        = sortCountDesc (violationTypeCounts violations) ∧
    (violations.length = 0 → percentageRows violations = []) ∧
    (0 < violations.length →
      |((percentageRows violations).map (fun r => r.2.2)).sum - 100|
        ≤ ((percentageRows violations).length : ℚ) / 20) := by
  refine ⟨?_, ?_, ?_⟩
  · rw [percentageRows, List.map_map]
    exact List.map_id _
  · intro h0
    rw [List.length_eq_zero] at h0
    rw [h0]
    rfl
  · intro hpos
    have hrend : (percentageRows violations).map (fun r => r.2.2)
        = (sortCountDesc (violationTypeCounts violations)).map
            (fun p => roundTenth ((p.2 : ℚ) / (violations.length : ℚ) * 100)) := by
      rw [percentageRows, List.map_map]
      rfl
    have hlen : (percentageRows violations).length
        = (sortCountDesc (violationTypeCounts violations)).length := by
      rw [percentageRows, List.length_map]
    have hb := abs_sum_sub_sum_le
      (fun p => roundTenth ((p.2 : ℚ) / (violations.length : ℚ) * 100))
      (fun p => (p.2 : ℚ) / (violations.length : ℚ) * 100) (1 / 20)
      (sortCountDesc (violationTypeCounts violations))
      (fun x _ => abs_roundTenth_sub _)
    rw [exact_percentage_sum violations hpos] at hb
    rw [hrend, hlen]
    calc |((sortCountDesc (violationTypeCounts violations)).map
            (fun p => roundTenth ((p.2 : ℚ) / (violations.length : ℚ) * 100))).sum - 100|
        ≤ (sortCountDesc (violationTypeCounts violations)).length * (1 / 20) := hb
      _ = ((sortCountDesc (violationTypeCounts violations)).length : ℚ) / 20 := by ring

theorem claim_C7_witness :
    percentageRows ([] : List VRow) = [] ∧
    |((percentageRows w7rows).map (fun r => r.2.2)).sum - 100|
      ≤ ((percentageRows w7rows).length : ℚ) / 20 :=
  ⟨(claim_C7_percentages []).2.1 rfl, (claim_C7_percentages w7rows).2.2 (by decide)⟩

/-! Lemmas for URL precedence: dropping the inline payload of a violation
that carries a truthy snapshot URL changes nothing the report reads. -/

theorem clearInlineWhenUrl_violation_type (v : VRow) :
    (clearInlineWhenUrl v).violation_type = v.violation_type := by
  rw [clearInlineWhenUrl]
  split <;> rfl

theorem clearInlineWhenUrl_severity (v : VRow) :
    (clearInlineWhenUrl v).severity = v.severity := by
  rw [clearInlineWhenUrl]
  split <;> rfl

theorem clearInlineWhenUrl_message (v : VRow) :
    (clearInlineWhenUrl v).message = v.message := by
  rw [clearInlineWhenUrl]
  split <;> rfl

theorem clearInlineWhenUrl_timestamp (v : VRow) :
    (clearInlineWhenUrl v).timestamp = v.timestamp := by
  rw [clearInlineWhenUrl]
  split <;> rfl

theorem truthy_or_clear (v : VRow) :
    (truthyS (clearInlineWhenUrl v).snapshot_url
      || truthyS (clearInlineWhenUrl v).snapshot_base64)
    = (truthyS v.snapshot_url || truthyS v.snapshot_base64) := by
  rw [clearInlineWhenUrl]
  split
  · rename_i h
    show (truthyS v.snapshot_url || truthyS none)
        = (truthyS v.snapshot_url || truthyS v.snapshot_base64)
    rw [h]
    rfl
  · rfl

theorem imgSection_clear (v : VRow) :
    imgSection (clearInlineWhenUrl v) = imgSection v := by
  rw [clearInlineWhenUrl]
  split
  · rename_i h
    rw [imgSection, imgSection]
    simp [h]
  · rfl

theorem timestampStr_clear (v : VRow) :
    timestampStr (clearInlineWhenUrl v) = timestampStr v := by
  simp only [timestampStr, clearInlineWhenUrl_timestamp]

theorem violationCard_clear (i : Nat) (v : VRow) :
    violationCard i (clearInlineWhenUrl v) = violationCard i v := by
  rw [violationCard, violationCard, clearInlineWhenUrl_violation_type,
    clearInlineWhenUrl_severity, clearInlineWhenUrl_message, timestampStr_clear,
    imgSection_clear]

theorem cardsFrom_clear (vs : List VRow) :
    ∀ i, cardsFrom i (vs.map clearInlineWhenUrl) = cardsFrom i vs := by
  induction vs with
  | nil => intro i; rfl
  | cons v vs ih =>
    intro i
    show violationCard i (clearInlineWhenUrl v)
        ++ cardsFrom (i + 1) (vs.map clearInlineWhenUrl)
      = violationCard i v ++ cardsFrom (i + 1) vs
    rw [violationCard_clear, ih]

theorem map_clear {β : Type} (f : VRow → β) (h : ∀ v, f (clearInlineWhenUrl v) = f v) :
    ∀ vs : List VRow, (vs.map clearInlineWhenUrl).map f = vs.map f := by
  intro vs
  induction vs with
  | nil => rfl
  | cons v vs ih => simp [h v, ih]

theorem typeCounts_clear (vs : List VRow) :
    violationTypeCounts (vs.map clearInlineWhenUrl) = violationTypeCounts vs := by
  rw [violationTypeCounts, violationTypeCounts,
    map_clear (fun v => v.violation_type.getD "unknown")
      (fun v => by
        show (clearInlineWhenUrl v).violation_type.getD "unknown"
            = v.violation_type.getD "unknown"
        rw [clearInlineWhenUrl_violation_type]) vs]

theorem filter_clear_length (vs : List VRow) :
    ((vs.map clearInlineWhenUrl).filter
        (fun v => truthyS v.snapshot_url || truthyS v.snapshot_base64)).length
      = (vs.filter (fun v => truthyS v.snapshot_url || truthyS v.snapshot_base64)).length := by
  induction vs with
  | nil => rfl
  | cons v vs ih =>
    rw [List.map_cons, List.filter_cons, List.filter_cons, truthy_or_clear]
    by_cases h : (truthyS v.snapshot_url || truthyS v.snapshot_base64) = true
    · rw [if_pos h, if_pos h]
      simp [ih]
    · rw [if_neg h, if_neg h]
      exact ih

theorem evidencePhotoCount_clear (vs : List VRow) :
    evidencePhotoCount (vs.map clearInlineWhenUrl) = evidencePhotoCount vs := by
  rw [evidencePhotoCount, evidencePhotoCount]
  exact filter_clear_length vs

theorem breakdownRow_length_congr (vs vsB : List VRow) (h : vsB.length = vs.length)
    (p : String × Nat) : breakdownRow vsB p = breakdownRow vs p := by
  rw [breakdownRow, breakdownRow, h]

theorem breakdownRows_clear (vs : List VRow) :
    breakdownRows (vs.map clearInlineWhenUrl) = breakdownRows vs := by
  rw [breakdownRows, breakdownRows, typeCounts_clear]
  have hfun : breakdownRow (vs.map clearInlineWhenUrl) = breakdownRow vs :=
    funext (breakdownRow_length_congr vs (vs.map clearInlineWhenUrl) (List.length_map _ _))
  rw [hfun]

theorem report_clear (student_id student_name generated : String) (vs : List VRow) :
    generate_student_html_report student_id student_name generated
        (vs.map clearInlineWhenUrl)
      = generate_student_html_report student_id student_name generated vs := by
  rw [generate_student_html_report, generate_student_html_report, typeCounts_clear,
    evidencePhotoCount_clear, breakdownRows_clear, cardsFrom_clear, List.length_map]

/-- C6: when a violation carries a truthy snapshot URL, its evidence image
resolves to that URL — the inline payload is ignored, so erasing the
inline payload of every violation that has a URL leaves the whole student
report unchanged — and the inline payload is embedded (as a data URI) only
when no URL is present. -/
theorem claim_C6_url_precedence (v : VRow) (student_id student_name generated : String)
    (violations : List VRow) :
    (truthyS v.snapshot_url = true →
      imgSection v = "<img src=\"" ++ v.snapshot_url.getD ""
        ++ "\" class=\"violation-image\" alt=\"Violation Evidence\">") ∧
    generate_student_html_report student_id student_name generated
        (violations.map clearInlineWhenUrl)
      = generate_student_html_report student_id student_name generated violations ∧
    (truthyS v.snapshot_url = false → truthyS v.snapshot_base64 = true →
      imgSection v = "<img src=\""
        ++ (if (v.snapshot_base64.getD "").startsWith "data:" then v.snapshot_base64.getD ""
            else "data:image/jpeg;base64," ++ v.snapshot_base64.getD "")
        ++ "\" class=\"violation-image\" alt=\"Violation Evidence\">") := by
  refine ⟨?_, report_clear student_id student_name generated violations, ?_⟩
  · intro h
    rw [imgSection, if_pos h]
  · intro h1 h2
    rw [imgSection, if_neg (by rw [h1]; exact Bool.false_ne_true), if_pos h2]

theorem claim_C6_witness :
    truthyS w6row.snapshot_url = true ∧
    imgSection w6row
      = "<img src=\"https://cdn/x.jpg\" class=\"violation-image\" alt=\"Violation Evidence\">" := by
  have h := (claim_C6_url_precedence w6row "STU-ABC123" "Jane Doe" "g" []).1 (by decide)
  exact ⟨by decide, by rw [h]; decide⟩

end ExamEye
